import Mathlib

/-!
Verification of the Nevo lesson-personalization and feedback pipeline.

This file gives a shallow embedding of the core of the backend:
the JSON recovery of model responses (`GeminiAIService._parse_json_response`),
the content-block validator (`LessonAdaptationAgent._validate_blocks`),
the play-lesson orchestration (`PlayLessonQuery.execute`),
the learner-profile entity (`NeuroProfile`),
the training-data pipeline (`TrainingDataPipeline`) and
the training-data repository operations
(`TrainingDataRepository.mark_batch_processed` / `list_unprocessed`).
Python strings are modelled as `List Char`, machine UUIDs as `Nat`,
timestamps as `Nat`, and decoded JSON values by the inductive type `Json`.
-/

namespace Nevo

/-- Model of a decoded JSON value (the result of Python `json.loads`).
Numbers are restricted to integers, which covers every value this
code base produces or consumes. Objects keep insertion order, and key
lookup returns the first binding, matching Python dict semantics for
the deduplicated dicts `json.loads` yields. -/
inductive Json where
  | null : Json
  | bool (b : Bool) : Json
  | num (n : Int) : Json
  | str (s : String) : Json
  | arr (items : List Json) : Json
  | obj (fields : List (String × Json)) : Json

/-- Python `dict.get(key)`: the value bound to `key`, if present. -/
def dictGet (fields : List (String × Json)) (key : String) : Option Json :=
  (fields.find? (fun kv => kv.1 = key)).map (fun kv => kv.2)

/-- Python `dict.get(key, default)`. -/
def dictGetD (fields : List (String × Json)) (key : String) (dflt : Json) : Json :=
  (dictGet fields key).getD dflt

/-- The characters Python `str.strip()` and the JSON lexer treat as whitespace
(the ones relevant to this code base). -/
def isWsChar (c : Char) : Bool :=
  c = ' ' || c = '\n' || c = '\t' || c = '\r'

/-- The character `{` (written via its code point to keep string literals clean). -/
def lbrace : Char := Char.ofNat 123

/-- The character `}`. -/
def rbrace : Char := Char.ofNat 125

/-- The character `[`. -/
def lbrack : Char := Char.ofNat 91

/-- The character `]`. -/
def rbrack : Char := Char.ofNat 93

/-- The backquote character used by markdown code fences. -/
def bquote : Char := Char.ofNat 96

/-- The double-quote character. -/
def dquote : Char := Char.ofNat 34

/-- The backslash character. -/
def bslash : Char := Char.ofNat 92

/-- Parse a run of decimal digits, accumulating into `acc`. -/
def parseDigits : List Char → Nat → Nat × List Char
  | c :: rest, acc =>
    if c.isDigit then parseDigits rest (acc * 10 + (c.toNat - 48)) else (acc, c :: rest)
  | [], acc => (acc, [])

/-- Parse the body of a JSON string literal (the opening quote already
consumed), handling the escapes this code base can meet. Returns the
decoded characters and the remaining input. -/
def parseStrChars : Nat → List Char → Option (List Char × List Char)
  | 0, _ => none
  | _, [] => none
  | fuel + 1, c :: rest =>
    if c = dquote then some ([], rest)
    else if c = bslash then
      match rest with
      | [] => none
      | e :: rest2 =>
        let ec := if e = 'n' then '\n' else if e = 't' then '\t' else if e = 'r' then '\r' else e
        match parseStrChars fuel rest2 with
        | some (cs, r) => some (ec :: cs, r)
        | none => none
    else
      match parseStrChars fuel rest with
      | some (cs, r) => some (c :: cs, r)
      | none => none

mutual

/-- Recursive-descent JSON value reader modelling Python `json.loads`;
returns the value and the unconsumed remainder of the input. -/
def parseValue : Nat → List Char → Option (Json × List Char)
  | 0, _ => none
  | fuel + 1, s =>
    match s.dropWhile isWsChar with
    | [] => none
    | c :: rest =>
      if c = dquote then
        match parseStrChars (rest.length + 1) rest with
        | some (cs, r) => some (Json.str (String.mk cs), r)
        | none => none
      else if c = lbrace then
        match rest.dropWhile isWsChar with
        | d :: r1 =>
          if d = rbrace then some (Json.obj [], r1)
          else
            match parseObjItems fuel (rest.dropWhile isWsChar) with
            | some (fs, r2) => some (Json.obj fs, r2)
            | none => none
        | [] => none
      else if c = lbrack then
        match rest.dropWhile isWsChar with
        | d :: r1 =>
          if d = rbrack then some (Json.arr [], r1)
          else
            match parseArrItems fuel (rest.dropWhile isWsChar) with
            | some (vs, r2) => some (Json.arr vs, r2)
            | none => none
        | [] => none
      else if c = 't' then
        match rest with
        | 'r' :: 'u' :: 'e' :: r => some (Json.bool true, r)
        | _ => none
      else if c = 'f' then
        match rest with
        | 'a' :: 'l' :: 's' :: 'e' :: r => some (Json.bool false, r)
        | _ => none
      else if c = 'n' then
        match rest with
        | 'u' :: 'l' :: 'l' :: r => some (Json.null, r)
        | _ => none
      else if c = '-' then
        match rest with
        | d :: _ =>
          if d.isDigit then
            let p := parseDigits rest 0
            some (Json.num (-(p.1 : Int)), p.2)
          else none
        | [] => none
      else if c.isDigit then
        let p := parseDigits (c :: rest) 0
        some (Json.num (p.1 : Int), p.2)
      else none

/-- Comma-separated JSON array items up to the closing bracket. -/
def parseArrItems : Nat → List Char → Option (List Json × List Char)
  | 0, _ => none
  | fuel + 1, s =>
    match parseValue fuel s with
    | none => none
    | some (v, r) =>
      match r.dropWhile isWsChar with
      | c :: r2 =>
        if c = ',' then
          match parseArrItems fuel r2 with
          | some (vs, r3) => some (v :: vs, r3)
          | none => none
        else if c = rbrack then some ([v], r2)
        else none
      | [] => none

/-- Comma-separated JSON object members up to the closing brace. -/
def parseObjItems : Nat → List Char → Option (List (String × Json) × List Char)
  | 0, _ => none
  | fuel + 1, s =>
    match s.dropWhile isWsChar with
    | c :: rest =>
      if c = dquote then
        match parseStrChars (rest.length + 1) rest with
        | some (kcs, r) =>
          match r.dropWhile isWsChar with
          | ':' :: r2 =>
            match parseValue fuel r2 with
            | some (v, r3) =>
              match r3.dropWhile isWsChar with
              | c2 :: r4 =>
                if c2 = ',' then
                  match parseObjItems fuel r4 with
                  | some (fs, r5) => some ((String.mk kcs, v) :: fs, r5)
                  | none => none
                else if c2 = rbrace then some ([(String.mk kcs, v)], r4)
                else none
              | [] => none
            | none => none
          | _ => none
        | none => none
      else none
    | [] => none

end

/-- Python `json.loads`: parse one JSON document, requiring only
whitespace after it. `none` models a raised `JSONDecodeError`. -/
def parseJson (s : List Char) : Option Json :=
  match parseValue (2 * s.length + 2) s with
  | some (v, rest) => if rest.dropWhile isWsChar = [] then some v else none
  | none => none

/-- Does `p` occur as an initial segment of `s`? (Python `str.startswith`.) -/
def startsList : List Char → List Char → Bool
  | [], _ => true
  | _ :: _, [] => false
  | p :: ps, c :: cs => p = c && startsList ps cs

/-- Does `p` occur as a final segment of `s`? (Python `str.endswith`.) -/
def endsList (p s : List Char) : Bool := startsList p.reverse s.reverse

/-- Python `str.strip()`: remove leading and trailing whitespace. -/
def stripChars (s : List Char) : List Char :=
  ((s.dropWhile isWsChar).reverse.dropWhile isWsChar).reverse

/-- The 7-character fence opener token of a json code fence. -/
def fenceJson : List Char := [bquote, bquote, bquote, 'j', 's', 'o', 'n']

/-- The 3-character plain fence token. -/
def fence3 : List Char := [bquote, bquote, bquote]

/-- Index of the first occurrence of `c` in `text` (Python `str.find`,
with absence as `none` instead of `-1`). -/
def firstIdx (text : List Char) (c : Char) : Option Nat :=
  text.findIdx? (fun x => x = c)

/-- Index of the last occurrence of `c` in `text` (Python `str.rfind`). -/
def lastIdx (text : List Char) (c : Char) : Option Nat :=
  match text.reverse.findIdx? (fun x => x = c) with
  | some i => some (text.length - 1 - i)
  | none => none

/-- The half-open span Python computes in the recovery branch:
`start = text.find(open); end = text.rfind(close) + 1`, used when
`start >= 0 and end > start`. -/
def recoverSpan (text : List Char) (opener closer : Char) : Option (Nat × Nat) :=
  match firstIdx text opener, lastIdx text closer with
  | some st, some en => if st ≤ en then some (st, en + 1) else none
  | _, _ => none

/-- Python slice `text[st:en]`. -/
def sliceList (text : List Char) (st en : Nat) : List Char :=
  (text.drop st).take (en - st)

/-- The leading-fence removal lines of `_parse_json_response`: drop
`startswith("```json")` (7 characters) or `startswith("```")` (3). -/
def dropLeadFence (t : List Char) : List Char :=
  if startsList fenceJson t then t.drop 7
  else if startsList fence3 t then t.drop 3
  else t

/-- The trailing-fence removal line: drop `endswith("```")`. -/
def dropTrailFence (t : List Char) : List Char :=
  if endsList fence3 t then t.take (t.length - 3) else t

/-- The recovery branch of `_parse_json_response`: the substring between
the first `{` and the last `}`, else between the first `[` and the last
`]`, else failure. A failing parse of the brace substring does not fall
through to the bracket branch (the raised `JSONDecodeError` propagates). -/
def recoverParse (text : List Char) : Option Json :=
  match recoverSpan text lbrace rbrace with
  | some (st, en) => parseJson (sliceList text st en)
  | none =>
    match recoverSpan text lbrack rbrack with
    | some (st, en) => parseJson (sliceList text st en)
    | none => none

/-- Embeds `GeminiAIService._parse_json_response`: strip, remove markdown
code fences, strip again, attempt a direct parse, then fall back to the
bracketed-substring recovery. `none` models the raised
`ValueError` / `JSONDecodeError`. -/
def parse_json_response (response : List Char) : Option Json :=
  let text := stripChars (dropTrailFence (dropLeadFence (stripChars response)))
  match parseJson text with
  | some v => some v
  | none => recoverParse text

/-- The response-extraction algorithm exactly as the specification words
it, step by step: (1) strip whitespace; (2) strip a leading fence token
and trailing fence; (3) attempt direct parse; (4) on failure parse the
substring from the first `{` to the last `}`, or from the first `[` to
the last `]`; (5) otherwise fail. Stated separately from
`parse_json_response` so the two can be compared. -/
def response_extractor_spec (response : List Char) : Option Json :=
  let step1 := stripChars response
  let step2a :=
    if startsList fenceJson step1 then step1.drop 7
    else if startsList fence3 step1 then step1.drop 3
    else step1
  let step2b := if endsList fence3 step2a then step2a.take (step2a.length - 3) else step2a
  let step2 := stripChars step2b
  let step3 := parseJson step2
  match step3 with
  | some v => some v
  | none =>
    let step4 :=
      match recoverSpan step2 lbrace rbrace with
      | some (st, en) => parseJson (sliceList step2 st en)
      | none =>
        match recoverSpan step2 lbrack rbrack with
        | some (st, en) => parseJson (sliceList step2 st en)
        | none => none
    step4

/-- A model response wrapped in markdown json fences, as produced by the
generative model: three backquotes, `json`, a newline, the payload, a
newline, three backquotes. -/
def fenceWrap (s : List Char) : List Char :=
  fenceJson ++ '\n' :: (s ++ '\n' :: fence3)

/-- Minimal JSON string escaping (backslash and double quote). -/
def escapeChars : List Char → List Char
  | [] => []
  | c :: rest =>
    if c = dquote || c = bslash then bslash :: c :: escapeChars rest
    else c :: escapeChars rest

mutual

/-- Serialization of a JSON value, modelling `json.dumps` with its default
separators. -/
def dumpJson : Json → List Char
  | .null => "null".data
  | .bool true => "true".data
  | .bool false => "false".data
  | .num n => (toString n).data
  | .str s => dquote :: (escapeChars s.data ++ [dquote])
  | .arr items => lbrack :: (dumpArrItems items ++ [rbrack])
  | .obj fs => lbrace :: (dumpObjItems fs ++ [rbrace])

/-- Serialized array elements, comma separated. -/
def dumpArrItems : List Json → List Char
  | [] => []
  | [v] => dumpJson v
  | v :: rest => dumpJson v ++ ',' :: ' ' :: dumpArrItems rest

/-- Serialized object members, comma separated. -/
def dumpObjItems : List (String × Json) → List Char
  | [] => []
  | [(k, v)] => dquote :: (escapeChars k.data ++ dquote :: ':' :: ' ' :: dumpJson v)
  | (k, v) :: rest =>
    (dquote :: (escapeChars k.data ++ dquote :: ':' :: ' ' :: dumpJson v))
      ++ ',' :: ' ' :: dumpObjItems rest

end

/-- Python `str()` coercion of a decoded JSON value as used inside
f-strings. For containers Python would use `repr` quoting; the exact
rendering is never relied upon, so the JSON serialization stands in. -/
def pyStr : Json → String
  | .str s => s
  | .num n => toString n
  | .bool true => "True"
  | .bool false => "False"
  | .null => "None"
  | .arr items => String.mk (dumpJson (.arr items))
  | .obj fs => String.mk (dumpJson (.obj fs))

/-!
## Content-block validation (`LessonAdaptationAgent._validate_blocks`)
-/

/-- The known content-block type tags, in source order. -/
def valid_types : List String :=
  ["heading", "text", "image", "image_prompt", "quiz", "quiz_check", "activity", "summary"]

/-- A validated content block: the dictionary `_validate_blocks` builds,
with its optional type-specific fields. -/
structure VBlock where
  id : Json
  type : String
  content : Json
  order : Nat
  emphasis : Option Json
  ai_generated_url : Option Json
  question : Option Json
  options : Option Json
  correct_index : Option Json

/-- Validation of a single raw block dictionary at enumerate index `i`:
unknown type forced to `text`, id defaulted to `str(i)`, content defaulted
to the empty string, order set to `i`, and the type-specific fields copied
or synthesized exactly as the source does. -/
def validateBlock (i : Nat) (d : List (String × Json)) : VBlock :=
  let bt0 := dictGetD d "type" (Json.str "text")
  let bt :=
    match bt0 with
    | Json.str s => if s ∈ valid_types then s else "text"
    | _ => "text"
  { id := dictGetD d "id" (Json.str (toString i))
    type := bt
    content := dictGetD d "content" (Json.str "")
    order := i
    emphasis := if bt = "text" then dictGet d "emphasis" else none
    ai_generated_url :=
      if bt = "image" ∨ bt = "image_prompt" then dictGet d "ai_generated_url" else none
    question :=
      if bt = "quiz" ∨ bt = "quiz_check" then
        some (dictGetD d "question" (dictGetD d "content" (Json.str "")))
      else none
    options :=
      if bt = "quiz" ∨ bt = "quiz_check" then some (dictGetD d "options" (Json.arr []))
      else none
    correct_index :=
      if bt = "quiz" ∨ bt = "quiz_check" then some (dictGetD d "correct_index" (Json.num 0))
      else none }

/-- Is this JSON value a dictionary? (`isinstance(block, dict)`.) -/
def isObjJson : Json → Bool
  | .obj _ => true
  | _ => false

/-- The enumerate loop of `_validate_blocks`: `i` is the running
enumerate index over the raw input list; non-dictionary entries are
skipped but still advance `i`. -/
def validate_blocks_aux : Nat → List Json → List VBlock
  | _, [] => []
  | i, Json.obj d :: rest => validateBlock i d :: validate_blocks_aux (i + 1) rest
  | i, _ :: rest => validate_blocks_aux (i + 1) rest

/-- Embeds `LessonAdaptationAgent._validate_blocks`. -/
def validate_blocks (blocks : List Json) : List VBlock :=
  validate_blocks_aux 0 blocks

/-!
## Learner profile (`NeuroProfile` entity)
-/

/-- `LearningStyle` enum. -/
inductive LearningStyle where
  | visual | auditory | kinesthetic | reading_writing | multimodal
deriving DecidableEq

/-- String value of a learning style, as in the Python enum. -/
def LearningStyle.value : LearningStyle → String
  | .visual => "visual"
  | .auditory => "auditory"
  | .kinesthetic => "kinesthetic"
  | .reading_writing => "reading_writing"
  | .multimodal => "multimodal"

/-- `LearningStyle(s)` lookup by value; `none` models the raised `ValueError`. -/
def learningStyleOfValue (s : String) : Option LearningStyle :=
  if s = "visual" then some .visual
  else if s = "auditory" then some .auditory
  else if s = "kinesthetic" then some .kinesthetic
  else if s = "reading_writing" then some .reading_writing
  else if s = "multimodal" then some .multimodal
  else none

/-- `ComplexityTolerance` enum. -/
inductive ComplexityTolerance where
  | low | medium | high
deriving DecidableEq

/-- String value of a complexity tolerance. -/
def ComplexityTolerance.value : ComplexityTolerance → String
  | .low => "low"
  | .medium => "medium"
  | .high => "high"

/-- `ComplexityTolerance(s)` lookup by value. -/
def complexityOfValue (s : String) : Option ComplexityTolerance :=
  if s = "low" then some .low
  else if s = "medium" then some .medium
  else if s = "high" then some .high
  else none

/-- `ReadingLevel` enum. -/
inductive ReadingLevel where
  | pre_k | grade_1 | grade_2 | grade_3 | grade_4 | grade_5
  | grade_6 | grade_7 | grade_8 | high_school
deriving DecidableEq

/-- String value of a reading level. -/
def ReadingLevel.value : ReadingLevel → String
  | .pre_k => "pre_k"
  | .grade_1 => "grade_1"
  | .grade_2 => "grade_2"
  | .grade_3 => "grade_3"
  | .grade_4 => "grade_4"
  | .grade_5 => "grade_5"
  | .grade_6 => "grade_6"
  | .grade_7 => "grade_7"
  | .grade_8 => "grade_8"
  | .high_school => "high_school"

/-- `SensoryTrigger` enum. -/
inductive SensoryTrigger where
  | loud_sounds | bright_lights | crowded_visuals | rapid_transitions | flashing_content
deriving DecidableEq

/-- String value of a sensory trigger. -/
def SensoryTrigger.value : SensoryTrigger → String
  | .loud_sounds => "loud_sounds"
  | .bright_lights => "bright_lights"
  | .crowded_visuals => "crowded_visuals"
  | .rapid_transitions => "rapid_transitions"
  | .flashing_content => "flashing_content"

/-- The `NeuroProfile` entity. `interests` and `preferred_subjects` hold
arbitrary decoded JSON values because the Python dataclass does not
enforce its `List[str]` annotation on data arriving from the model. -/
structure NeuroProfile where
  user_id : Nat
  id : Nat
  assessment_raw_data : Json
  learning_style : LearningStyle
  reading_level : ReadingLevel
  complexity_tolerance : ComplexityTolerance
  attention_span_minutes : Int
  sensory_triggers : List SensoryTrigger
  interests : List Json
  preferred_subjects : List Json
  generated_profile : Json
  confidence_scores : Json
  created_at : Nat
  last_updated : Nat
  version : Nat

/-- A freshly constructed `NeuroProfile(user_id=..., assessment_raw_data=...)`
with the dataclass field defaults. -/
def initProfile (uid pid : Nat) (raw : Json) (now : Nat) : NeuroProfile :=
  { user_id := uid
    id := pid
    assessment_raw_data := raw
    learning_style := .visual
    reading_level := .grade_3
    complexity_tolerance := .medium
    attention_span_minutes := 15
    sensory_triggers := []
    interests := []
    preferred_subjects := []
    generated_profile := Json.obj []
    confidence_scores := Json.obj []
    created_at := now
    last_updated := now
    version := 1 }

/-- Embeds `NeuroProfile.update_from_assessment`. -/
def update_from_assessment (p : NeuroProfile) (raw : Json) (now : Nat) : NeuroProfile :=
  { p with assessment_raw_data := raw, last_updated := now, version := p.version + 1 }

/-- The `learning_style` branch of `update_generated_profile`: a present
non-string value raises `AttributeError` on `.lower()` (uncaught), a
string that is not a valid enum value is ignored (`ValueError` caught). -/
def applyLearningStyle (p : NeuroProfile) (d : List (String × Json)) :
    Except String NeuroProfile :=
  match dictGet d "learning_style" with
  | none => .ok p
  | some (Json.str s) =>
    match learningStyleOfValue s.toLower with
    | some ls => .ok { p with learning_style := ls }
    | none => .ok p
  | some _ => .error "AttributeError"

/-- The `complexity_tolerance` branch of `update_generated_profile`. -/
def applyComplexity (p : NeuroProfile) (d : List (String × Json)) :
    Except String NeuroProfile :=
  match dictGet d "complexity_tolerance" with
  | none => .ok p
  | some (Json.str s) =>
    match complexityOfValue s.toLower with
    | some ct => .ok { p with complexity_tolerance := ct }
    | none => .ok p
  | some _ => .error "AttributeError"

/-- The `interests` branch of `update_generated_profile`:
`profile_data["interests"][:10]`. A JSON array is truncated to 10
entries; a string is sliced to its first 10 characters (Python string
slicing, modelled as single-character strings); any other present value
raises `TypeError` on slicing (uncaught). -/
def applyInterests (p : NeuroProfile) (d : List (String × Json)) :
    Except String NeuroProfile :=
  match dictGet d "interests" with
  | none => .ok p
  | some (Json.arr l) => .ok { p with interests := l.take 10 }
  | some (Json.str s) =>
    .ok { p with interests := (s.data.take 10).map (fun c => Json.str (String.mk [c])) }
  | some _ => .error "TypeError"

/-- Embeds `NeuroProfile.update_generated_profile`: store the generated
data, extract learning style / complexity / interests when present, then
refresh the timestamp and bump the version. An error models an uncaught
exception escaping the method before the final bookkeeping runs. -/
def update_generated_profile (p : NeuroProfile) (d : List (String × Json)) (now : Nat) :
    Except String NeuroProfile :=
  match applyLearningStyle { p with generated_profile := Json.obj d } d with
  | .error e => .error e
  | .ok p2 =>
    match applyComplexity p2 d with
    | .error e => .error e
    | .ok p3 =>
      match applyInterests p3 d with
      | .error e => .error e
      | .ok p4 => .ok { p4 with last_updated := now, version := p4.version + 1 }

/-- The learner profiles reachable through the profile operations:
creation from assessment data (`SubmitAssessmentCommand` constructs
`NeuroProfile(user_id=..., assessment_raw_data=...)` and applies
`update_generated_profile`), and the two update operations. -/
inductive ReachableProfile : NeuroProfile → Prop where
  | created : ∀ uid pid raw now d now2 p,
      update_generated_profile (initProfile uid pid raw now) d now2 = .ok p →
      ReachableProfile p
  | assessed : ∀ p raw now, ReachableProfile p →
      ReachableProfile (update_from_assessment p raw now)
  | regenerated : ∀ p d now p', ReachableProfile p →
      update_generated_profile p d now = .ok p' →
      ReachableProfile p'

/-!
## Training data (`TrainingDataLog`, `TrainingDataPipeline`,
`TrainingDataRepository`)
-/

/-- The `TrainingDataLog` entity / database row. -/
structure TrainingDataLog where
  id : Nat
  source_id : Nat
  source_type : String
  input_context : List (String × Json)
  model_output : List (String × Json)
  human_correction : Option (List (String × Json))
  model_name : String
  model_version : String
  prompt_template_version : String
  metric_score : Option Int
  quality_rating : Option Int
  was_accepted : Bool
  corrected_by_user_id : Option Nat
  correction_type : Option String
  correction_notes : Option String
  is_processed : Bool
  processed_at : Option Nat
  training_batch_id : Option String
  created_at : Nat

/-- Embeds the `TrainingDataLog.has_correction` property: a non-null
correction payload (the flag does not consult `was_accepted`). -/
def TrainingDataLog.has_correction (l : TrainingDataLog) : Bool :=
  l.human_correction.isSome

/-- Embeds the `TrainingDataLog.mark_processed` entity method. -/
def TrainingDataLog.mark_processed (l : TrainingDataLog) (batch_id : String) (now : Nat) :
    TrainingDataLog :=
  { l with is_processed := true, processed_at := some now, training_batch_id := some batch_id }

/-- Embeds `TrainingDataPipeline._extract_instruction`: a fixed-priority
cascade over the input context. -/
def extract_instruction (ctx : List (String × Json)) : Json :=
  match dictGet ctx "instruction" with
  | some v => v
  | none =>
    match dictGet ctx "block_type" with
    | some bt => Json.str ("Generate adapted " ++ pyStr bt ++ " content for a student")
    | none =>
      match dictGet ctx "profile" with
      | some _ => Json.str "Adapt the following lesson content for the student profile"
      | none => Json.str "Generate educational content"

/-- A supervised fine-tuning sample. The `input`/`output` fields hold the
JSON values whose `json.dumps` serializations the source emits. -/
structure SftSample where
  id : Nat
  instruction : Json
  input : Json
  output : Json
  source_type : String
  model : String
  quality_score : Option Int

/-- A preference (DPO) sample: `chosen` is the teacher's correction and
`rejected` the original model output (as values; the source stores their
`json.dumps` serializations). -/
structure DpoSample where
  id : Nat
  prompt : Json
  input_context : Json
  chosen : Json
  rejected : Json
  source_type : String
  correction_type : Option String
  corrector_id : Option Nat

/-- Either kind of training sample. -/
inductive TrainingSample where
  | sft (s : SftSample)
  | dpo (d : DpoSample)

/-- Embeds `TrainingDataPipeline._create_sft_sample`. -/
def create_sft_sample (log : TrainingDataLog) : SftSample :=
  { id := log.id
    instruction := extract_instruction log.input_context
    input := Json.obj log.input_context
    output := Json.obj log.model_output
    source_type := log.source_type
    model := log.model_name
    quality_score := log.metric_score }

/-- Embeds `TrainingDataPipeline._create_dpo_sample`. -/
def create_dpo_sample (log : TrainingDataLog) : DpoSample :=
  { id := log.id
    prompt := extract_instruction log.input_context
    input_context := Json.obj log.input_context
    chosen :=
      match log.human_correction with
      | some c => Json.obj c
      | none => Json.null
    rejected := Json.obj log.model_output
    source_type := log.source_type
    correction_type := log.correction_type
    corrector_id := log.corrected_by_user_id }

/-- The per-log branch of `TrainingDataPipeline.prepare_training_data`:
a correction on file routes the log to DPO, otherwise acceptance routes
it to SFT, otherwise it is dropped. This is the sample builder of the
specification. -/
def buildSample (log : TrainingDataLog) : Option TrainingSample :=
  if log.has_correction then some (.dpo (create_dpo_sample log))
  else if log.was_accepted then some (.sft (create_sft_sample log))
  else none

/-- Is this a preference sample? -/
def isDpoSample : Option TrainingSample → Bool
  | some (.dpo _) => true
  | _ => false

/-- Is this an SFT sample? -/
def isSftSample : Option TrainingSample → Bool
  | some (.sft _) => true
  | _ => false

/-- The batch result of `prepare_training_data` (the stats counters are
derived from the two lists exactly as the source computes them). -/
structure TrainingBatch where
  sft_data : List SftSample
  dpo_data : List DpoSample

/-- Embeds the loop of `TrainingDataPipeline.prepare_training_data`. -/
def prepare_training_data (logs : List TrainingDataLog) : TrainingBatch :=
  { sft_data := logs.filterMap fun log =>
      if log.has_correction then none
      else if log.was_accepted then some (create_sft_sample log)
      else none
    dpo_data := logs.filterMap fun log =>
      if log.has_correction then some (create_dpo_sample log) else none }

/-- Embeds `TrainingDataRepository.mark_batch_processed`: a SQL `UPDATE`
touching every row whose id is in `log_ids`, unconditionally setting the
processed flag, the processed-at time and the batch id. -/
def mark_batch_processed (db : List TrainingDataLog) (log_ids : List Nat)
    (batch_id : String) (now : Nat) : List TrainingDataLog :=
  db.map fun r =>
    if r.id ∈ log_ids then
      { r with is_processed := true, processed_at := some now,
               training_batch_id := some batch_id }
    else r

/-- Embeds `TrainingDataRepository.list_unprocessed`: the rows with
`is_processed == False`, oldest first, limited. The row list is kept in
`created_at` ascending order, matching the query's `ORDER BY`. -/
def list_unprocessed (db : List TrainingDataLog) (limit : Nat) : List TrainingDataLog :=
  (db.filter fun r => !r.is_processed).take limit

/-!
## Play-lesson orchestration (`PlayLessonQuery.execute`)
-/

/-- `UserRole` enum. -/
inductive UserRole where
  | student | teacher | school_admin | parent | super_admin
deriving DecidableEq

/-- The slice of the `User` entity the play query consults. -/
structure User where
  id : Nat
  role : UserRole

/-- Embeds the `User.is_student` property. -/
def User.is_student (u : User) : Bool :=
  match u.role with
  | .student => true
  | _ => false

/-- The slice of the `Lesson` entity the play query consults. -/
structure Lesson where
  id : Nat
  title : String
  original_text_content : String
  adaptation_count : Nat
  updated_at : Nat

/-- Embeds `Lesson.increment_adaptation_count`: bump the counter and
refresh the entity timestamp. -/
def Lesson.increment_adaptation_count (l : Lesson) (now : Nat) : Lesson :=
  { l with adaptation_count := l.adaptation_count + 1, updated_at := now }

/-- `AdaptedLessonStatus` enum. -/
inductive AdaptedLessonStatus where
  | pending | generating | ready | failed
deriving DecidableEq

/-- Modelled from the spec: the `AdaptedLesson` entity
(`src/domain/entities/adapted_lesson.py` is absent from the source tree;
only its callers and the repository conversion are present). Fields
follow the spec's AdaptedContent cache entry and the repository's
`_to_entity` call: key pair, title, adaptation-style label, ordered
content blocks, generation status, model identifier, generation latency,
view/completion counters. `content_blocks_json` holds whatever decoded
JSON the orchestrator stored. -/
structure AdaptedLesson where
  id : Nat
  lesson_id : Nat
  student_id : Nat
  lesson_title : String
  adaptation_style : Json
  content_blocks_json : Json
  status : AdaptedLessonStatus
  is_active : Bool
  ai_model_used : Option String
  generation_duration_ms : Option Nat
  view_count : Nat
  completion_count : Nat

/-- Modelled from the spec: `AdaptedLesson.increment_view_count` — the
cache-hit path increments the view counter ("mutated on every subsequent
play (view counter)"). -/
def AdaptedLesson.increment_view_count (a : AdaptedLesson) : AdaptedLesson :=
  { a with view_count := a.view_count + 1 }

/-- Modelled from the spec: `AdaptedLesson.set_content_blocks` — stores
the validated-or-raw block payload on the cache entry. -/
def AdaptedLesson.set_content_blocks (a : AdaptedLesson) (blocks : Json) : AdaptedLesson :=
  { a with content_blocks_json := blocks }

/-- Modelled from the spec: `AdaptedLesson.mark_as_ready` — the
`status=ready` transition of the upsert step. -/
def AdaptedLesson.mark_as_ready (a : AdaptedLesson) : AdaptedLesson :=
  { a with status := .ready }

/-- Modelled from the spec: a fresh `AdaptedLesson(...)` as the play
query constructs it, with dataclass defaults for status and counters
(created pending, counters zero, active). -/
def AdaptedLesson.make (fresh_id lesson_id student_id : Nat) (lesson_title : String)
    (adaptation_style : Json) (duration_ms : Nat) : AdaptedLesson :=
  { id := fresh_id
    lesson_id := lesson_id
    student_id := student_id
    lesson_title := lesson_title
    adaptation_style := adaptation_style
    content_blocks_json := Json.arr []
    status := .pending
    is_active := true
    ai_model_used := some "gemini-pro"
    generation_duration_ms := some duration_ms
    view_count := 0
    completion_count := 0 }

/-- The `ContentBlockType` enum values of the constants module (the
repository's `_to_entity` parses every stored block type through this
enum; note it knows `video`, which the agent validator does not). -/
def contentBlockTypes : List String :=
  ["heading", "text", "image", "image_prompt", "video", "quiz", "quiz_check", "activity",
   "summary"]

/-- Python truthiness of a decoded JSON value (`bool(x)`), as used by
`_to_entity`'s `if model.content_blocks:` and `... or []` defaults. -/
def pyTruthy : Json → Bool
  | .null => false
  | .bool b => b
  | .num n => n ≠ 0
  | .str s => s ≠ ""
  | .arr items => !items.isEmpty
  | .obj fs => !fs.isEmpty

/-- Does one stored block survive the `ContentBlock` re-parse of
`AdaptedLessonRepository._to_entity`? A non-dictionary entry raises
`AttributeError` on `.get`; a present non-string type or a string
outside `ContentBlockType` raises `ValueError`; an absent type defaults
to `text`. -/
def blockReparseOk : Json → Bool
  | .obj d =>
    match dictGet d "type" with
    | none => true
    | some (Json.str s) => s ∈ contentBlockTypes
    | some _ => false
  | _ => false

/-- Does a stored `content_blocks` value survive the `_to_entity`
re-parse that `AdaptedLessonRepository.create`/`update` run after the
flush? A falsy value is not parsed at all; a truthy value must be a list
whose every entry re-parses (iterating any other truthy value raises
before a `ContentBlock` can be built). `false` models the uncaught
exception escaping the repository call. -/
def toEntityBlocksOk (blocks : Json) : Bool :=
  if pyTruthy blocks then
    match blocks with
    | .arr items => items.all blockReparseOk
    | _ => false
  else true

/-- The entity `AdaptedLessonRepository._to_entity` hands back when the
re-parse succeeds: same row, with the falsy-to-default normalizations
`adaptation_style or ""` and `content_blocks or []` applied. -/
def to_entity_view (a : AdaptedLesson) : AdaptedLesson :=
  { a with
      adaptation_style := if pyTruthy a.adaptation_style then a.adaptation_style
                          else Json.str ""
      content_blocks_json := if pyTruthy a.content_blocks_json then a.content_blocks_json
                             else Json.arr [] }

/-- The storage visible to the play query through the unit of work. -/
structure DB where
  lessons : List Lesson
  users : List User
  neuro_profiles : List NeuroProfile
  adapted_lessons : List AdaptedLesson

/-- `lessons.get_by_id`. -/
def DB.findLesson (db : DB) (lid : Nat) : Option Lesson :=
  db.lessons.find? fun l => l.id == lid

/-- `users.get_by_id`. -/
def DB.findUser (db : DB) (uid : Nat) : Option User :=
  db.users.find? fun u => u.id == uid

/-- `neuro_profiles.get_by_user_id`. -/
def DB.findProfile (db : DB) (uid : Nat) : Option NeuroProfile :=
  db.neuro_profiles.find? fun p => p.user_id == uid

/-- `adapted_lessons.get_by_lesson_and_student`. -/
def DB.findAdapted (db : DB) (lid sid : Nat) : Option AdaptedLesson :=
  db.adapted_lessons.find? fun a => a.lesson_id == lid && a.student_id == sid

/-- The row replacement of `adapted_lessons.update`. The trailing
`_to_entity` re-parse the repository runs after the flush is modelled at
the call sites: on the generation path by the `toEntityBlocksOk` gate
(its failure is an uncaught exception, so the transaction rolls back and
this replacement never commits); on the cache-hit path the committed
entry's blocks already passed that same gate when they were written, so
the re-parse succeeds and its result — which the play query discards —
is not modelled. -/
def DB.updateAdapted (db : DB) (a : AdaptedLesson) : DB :=
  { db with adapted_lessons := db.adapted_lessons.map fun x => if x.id == a.id then a else x }

/-- The row insert of `adapted_lessons.create`. The trailing
`_to_entity` re-parse is modelled at the call site in
`generate_adapted`: the `toEntityBlocksOk` gate decides whether the call
raises (rolling the insert back), and `to_entity_view` is the re-parsed
entity `create` returns on success. -/
def DB.createAdapted (db : DB) (a : AdaptedLesson) : DB :=
  { db with adapted_lessons := db.adapted_lessons ++ [a] }

/-- `lessons.update`: replace the row with the same id. -/
def DB.updateLesson (db : DB) (l : Lesson) : DB :=
  { db with lessons := db.lessons.map fun x => if x.id == l.id then l else x }

/-- Python `"....".title()` of an enum value string. -/
def pyTitle (s : String) : String :=
  String.mk (((s.data.foldl (fun (acc : List Char × Bool) c =>
    ((if acc.2 then c.toUpper else c.toLower) :: acc.1, !c.isAlpha)) ([], true))).1.reverse)

/-- Embeds `GeminiAIService._build_lesson_adaptation_prompt`: one prompt
string assembled from the profile context, the lesson title and the
first 5000 characters of the lesson body. -/
def build_lesson_adaptation_prompt (lesson : Lesson) (p : NeuroProfile) : String :=
  "Rewrite the following lesson content for a student with these learning attributes: "
    ++ "Learning Style: " ++ p.learning_style.value
    ++ " Reading Level: " ++ p.reading_level.value
    ++ " Complexity Tolerance: " ++ p.complexity_tolerance.value
    ++ " Attention Span: " ++ toString p.attention_span_minutes ++ " minutes"
    ++ " Interests: "
    ++ (if p.interests.isEmpty then "general topics"
        else String.intercalate ", " ((p.interests.take 5).map pyStr))
    ++ " Sensory Triggers to Avoid: "
    ++ (if p.sensory_triggers.isEmpty then "none specified"
        else String.intercalate ", " (p.sensory_triggers.map SensoryTrigger.value))
    ++ " Original Lesson Title: " ++ lesson.title
    ++ " Original Content: " ++ lesson.original_text_content.take 5000

/-- The opaque model-completion boundary: a prompt in, raw text out, or a
raised error. -/
def GenOracle : Type := String → Except String (List Char)

/-- Embeds `GeminiAIService.adapt_lesson`: build the prompt, invoke the
model once, recover JSON from the raw text, and return the
`adaptation_style`/`blocks` dictionary. Any failure (model call error,
unrecoverable response, non-dictionary response) surfaces as a single
`AIServiceError` (here the error message). No content-block validation
happens in this service. -/
def adapt_lesson (complete : GenOracle) (lesson : Lesson) (p : NeuroProfile) :
    Except String (List (String × Json)) :=
  match complete (build_lesson_adaptation_prompt lesson p) with
  | .error e => .error ("Failed to adapt lesson: " ++ e)
  | .ok response =>
    match parse_json_response response with
    | none => .error "Failed to adapt lesson: Could not parse JSON from response"
    | some (Json.obj d) =>
      .ok [("adaptation_style",
              dictGetD d "adaptation_style" (Json.str (pyTitle p.learning_style.value ++ " Focus"))),
           ("blocks", dictGetD d "blocks" (Json.arr []))]
    | some _ => .error "Failed to adapt lesson: AttributeError"

/-- The error taxonomy the play query can surface: the application's
own errors, plus `unhandled` for an uncaught Python exception escaping
the call (such as the `ValueError` raised by the repository's
`ContentBlockType` re-parse). -/
inductive PlayError where
  | entityNotFound (entity : String) (eid : Nat)
  | validation (message fieldName : String)
  | aiService (message : String)
  | unhandled (message : String)
deriving DecidableEq

/-- The `PlayLessonOutput` DTO. -/
structure PlayLessonOutput where
  lesson_title : String
  adaptation_style : Json
  blocks : Json
  adapted_lesson_id : Nat
  original_lesson_id : Nat
  student_id : Nat

/-- The generation path of the play query (no ready cache entry): require
a profile, call the AI service, upsert the cache entry — which raises an
uncaught `ValueError`/`AttributeError` when the repository's `_to_entity`
re-parse rejects the stored blocks (`toEntityBlocksOk`) — then bump the
lesson's adaptation counter and commit. On the create branch the play
query continues with the re-parsed entity `create` returns
(`to_entity_view`); on the update branch the repository's return value
is discarded and the in-memory entity is used. Any error returns the
database unchanged, modelling the unit of work's rollback of the
uncommitted transaction. -/
def generate_adapted (complete : GenOracle) (now duration_ms fresh_id : Nat) (db : DB)
    (lesson : Lesson) (lesson_id student_id : Nat) (existing : Option AdaptedLesson) :
    Except PlayError PlayLessonOutput × DB :=
  match db.findProfile student_id with
  | none =>
    (.error (.validation "Student must complete assessment before accessing lessons" "student_id"),
     db)
  | some profile =>
    match adapt_lesson complete lesson profile with
    | .error m => (.error (.aiService m), db)
    | .ok result =>
      let style := dictGetD result "adaptation_style" (Json.str "Personalized")
      let blocks := dictGetD result "blocks" (Json.arr [])
      if toEntityBlocksOk blocks then
        let adapted2 :=
          match existing with
          | some a =>
            ((({ a with lesson_title := lesson.title, adaptation_style := style,
                        ai_model_used := some "gemini-pro",
                        generation_duration_ms := some duration_ms }).set_content_blocks
                blocks)).mark_as_ready
          | none =>
            ((AdaptedLesson.make fresh_id lesson_id student_id lesson.title style
                duration_ms).set_content_blocks blocks).mark_as_ready
        let db2 :=
          match existing with
          | some _ => db.updateAdapted adapted2
          | none => db.createAdapted adapted2
        let adaptedView :=
          match existing with
          | some _ => adapted2
          | none => to_entity_view adapted2
        let db3 := db2.updateLesson (lesson.increment_adaptation_count now)
        (.ok { lesson_title := adaptedView.lesson_title
               adaptation_style := adaptedView.adaptation_style
               blocks := adaptedView.content_blocks_json
               adapted_lesson_id := adaptedView.id
               original_lesson_id := lesson_id
               student_id := student_id },
         db3)
      else (.error (.unhandled "ValueError"), db)

/-- Embeds `PlayLessonQuery.execute`: verify the lesson, the user and the
student role, then return the cached adaptation when one is ready
(bumping its view counter), else generate. Returns the result together
with the committed database state; every error leaves the database
unchanged (the unit of work rolls the transaction back). -/
def play_lesson (complete : GenOracle) (now duration_ms fresh_id : Nat) (db : DB)
    (lesson_id student_id : Nat) : Except PlayError PlayLessonOutput × DB :=
  match db.findLesson lesson_id with
  | none => (.error (.entityNotFound "Lesson" lesson_id), db)
  | some lesson =>
    match db.findUser student_id with
    | none => (.error (.entityNotFound "User" student_id), db)
    | some student =>
      if !student.is_student then
        (.error (.validation "Only students can play lessons" "student_id"), db)
      else
        match db.findAdapted lesson_id student_id with
        | some adapted =>
          if adapted.status = .ready then
            let adapted2 := adapted.increment_view_count
            (.ok { lesson_title := adapted2.lesson_title
                   adaptation_style := adapted2.adaptation_style
                   blocks := adapted2.content_blocks_json
                   adapted_lesson_id := adapted2.id
                   original_lesson_id := lesson_id
                   student_id := student_id },
             db.updateAdapted adapted2)
          else
            generate_adapted complete now duration_ms fresh_id db lesson lesson_id student_id
              (some adapted)
        | none =>
          generate_adapted complete now duration_ms fresh_id db lesson lesson_id student_id none

/-- The "type" values of the dictionary entries of a stored block array
(a convenience observer for stating properties about persisted blocks). -/
def blockTypeValues : Json → List (Option Json)
  | .arr items => items.map fun b =>
      match b with
      | .obj d => dictGet d "type"
      | _ => none
  | _ => []

/-- The "order" values of the dictionary entries of a stored block
array (`none` marks a missing order key or non-dictionary entry). -/
def blockOrderValues : Json → List (Option Json)
  | .arr items => items.map fun b =>
      match b with
      | .obj d => dictGet d "order"
      | _ => none
  | _ => []

/-- The number of entries of a stored block array. -/
def blockCount : Json → Nat
  | .arr items => items.length
  | _ => 0

/-- The blocks of a play result, for stating observations (`Json.null`
when the call failed). -/
def playBlocksOf : Except PlayError PlayLessonOutput → Json
  | .ok o => o.blocks
  | .error _ => Json.null

/-- Did the play call succeed? -/
def isOkPlay : Except PlayError PlayLessonOutput → Bool
  | .ok _ => true
  | .error _ => false

/-- The enumerate indices at which the raw block list holds a dictionary
entry, starting from index `i` (the values `_validate_blocks` assigns as
`order`). -/
def objIndicesFrom : Nat → List Json → List Nat
  | _, [] => []
  | i, Json.obj _ :: rest => i :: objIndicesFrom (i + 1) rest
  | i, _ :: rest => objIndicesFrom (i + 1) rest

/-- The learner-profile invariant of the specification: attention span in
`[5, 30]` and at most 10 interests. -/
def ProfileInv (p : NeuroProfile) : Prop :=
  5 ≤ p.attention_span_minutes ∧ p.attention_span_minutes ≤ 30 ∧ p.interests.length ≤ 10

/-!
## Concrete instances used by witnesses and counterexamples
-/

/-- A raw model block with an unknown type tag. -/
def rawMystery : Json := Json.obj [("type", Json.str "mystery"), ("content", Json.str "x")]

/-- A concrete lesson. -/
def lessonC : Lesson :=
  { id := 1, title := "T",
    original_text_content := "Photosynthesis converts sunlight into energy.",
    adaptation_count := 0, updated_at := 0 }

/-- A concrete student. -/
def studentC : User := { id := 2, role := .student }

/-- A concrete teacher. -/
def teacherC : User := { id := 4, role := .teacher }

/-- A concrete learner profile for the student. -/
def profileC : NeuroProfile := initProfile 2 7 (Json.obj []) 0

/-- A one-lesson store with a student, a teacher, the student's profile
and an empty cache. -/
def dbMiss : DB :=
  { lessons := [lessonC]
    users := [studentC, teacherC]
    neuro_profiles := [profileC]
    adapted_lessons := [] }

/-- The store of `dbMiss` with no profile on file. -/
def dbNoProf : DB := { dbMiss with neuro_profiles := [] }

/-- A gateway stub returning a single unknown-type block. -/
def genMystery : GenOracle := fun _ =>
  .ok ("\x7b\"adaptation_style\": \"S\", \"blocks\": [\x7b\"type\": \"mystery\", \"content\": \"x\"\x7d]\x7d".data)

/-- The three raw blocks of the specification's scenario stub. -/
def threeBlocks : List Json :=
  [Json.obj [("type", Json.str "heading"), ("content", Json.str "H")],
   Json.obj [("type", Json.str "text"), ("content", Json.str "B")],
   Json.obj [("type", Json.str "quiz"), ("question", Json.str "Q")]]

/-- A gateway stub returning the three-block scenario response. -/
def genThree : GenOracle := fun _ =>
  .ok ("\x7b\"adaptation_style\": \"Visual Focus\", \"blocks\": [\x7b\"type\": \"heading\", \"content\": \"H\"\x7d, \x7b\"type\": \"text\", \"content\": \"B\"\x7d, \x7b\"type\": \"quiz\", \"question\": \"Q\"\x7d]\x7d".data)

/-- A gateway stub whose model call raises. -/
def genBoom : GenOracle := fun _ => .error "boom"

/-- A ready cache entry for the pair (lesson 1, student 2). -/
def readyEntry : AdaptedLesson :=
  { id := 42
    lesson_id := 1
    student_id := 2
    lesson_title := "T"
    adaptation_style := Json.str "Visual Focus"
    content_blocks_json := Json.arr threeBlocks
    status := .ready
    is_active := true
    ai_model_used := some "gemini-pro"
    generation_duration_ms := some 5
    view_count := 3
    completion_count := 0 }

/-- The store of `dbMiss` with the ready entry cached and no profile on
file (the replay-after-profile-deletion scenario). -/
def dbHit : DB :=
  { lessons := dbMiss.lessons
    users := dbMiss.users
    neuro_profiles := []
    adapted_lessons := [readyEntry] }

/-- A logged interaction carrying a correction while still flagged
accepted (constructible because `was_accepted` defaults to `True` and is
independent of the correction payload). -/
def logCorrectedAccepted : TrainingDataLog :=
  { id := 1
    source_id := 10
    source_type := "adapted_lesson"
    input_context := []
    model_output := [("text", Json.str "original")]
    human_correction := some [("text", Json.str "fixed")]
    model_name := "gemini-pro"
    model_version := ""
    prompt_template_version := ""
    metric_score := none
    quality_rating := none
    was_accepted := true
    corrected_by_user_id := some 3
    correction_type := some "content"
    correction_notes := none
    is_processed := false
    processed_at := none
    training_batch_id := none
    created_at := 0 }

/-- An accepted interaction with no correction on file. -/
def logAccepted : TrainingDataLog :=
  { logCorrectedAccepted with
      id := 2, human_correction := none, corrected_by_user_id := none,
      correction_type := none, was_accepted := true }

/-- A corrected (and, as `add_correction` leaves it, no longer accepted)
interaction. -/
def logCorrected : TrainingDataLog :=
  { logCorrectedAccepted with id := 3, was_accepted := false }

/-- A row already folded into batch "A" at time 1. -/
def processedRow : TrainingDataLog :=
  { logAccepted with
      id := 5, is_processed := true, processed_at := some 1,
      training_batch_id := some "A" }

/-- The profile produced by the creation path at concrete inputs
(assessment submitted at time 0, generation applied at time 5 with an
empty generated payload). -/
def profileSample : NeuroProfile :=
  { initProfile 1 2 Json.null 0 with
      generated_profile := Json.obj [], last_updated := 5, version := 2 }

/-!
## Lemmas
-/

theorem validate_blocks_aux_length (blocks : List Json) :
    ∀ i, (validate_blocks_aux i blocks).length = (blocks.filter isObjJson).length := by
  induction blocks with
  | nil => intro i; rfl
  | cons b rest ih =>
    intro i
    cases b <;> simp [validate_blocks_aux, isObjJson, List.filter_cons, ih]

theorem validate_blocks_aux_orders (blocks : List Json) :
    ∀ i, (validate_blocks_aux i blocks).map VBlock.order = objIndicesFrom i blocks := by
  induction blocks with
  | nil => intro i; rfl
  | cons b rest ih =>
    intro i
    cases b <;> simp [validate_blocks_aux, objIndicesFrom, validateBlock, ih]

theorem objIndicesFrom_all_obj (blocks : List Json) (h : ∀ b ∈ blocks, isObjJson b = true) :
    ∀ i, objIndicesFrom i blocks = List.range' i blocks.length := by
  induction blocks with
  | nil => intro i; rfl
  | cons b rest ih =>
    intro i
    have hb := h b (List.mem_cons_self b rest)
    have hrest : ∀ x ∈ rest, isObjJson x = true := fun x hx => h x (List.mem_cons_of_mem b hx)
    cases b
    case obj fs => simp [objIndicesFrom, List.range', ih hrest]
    all_goals simp [isObjJson] at hb

theorem list_unprocessed_flag (db : List TrainingDataLog) (limit : Nat) (r : TrainingDataLog)
    (h : r ∈ list_unprocessed db limit) : r.is_processed = false := by
  unfold list_unprocessed at h
  have h1 : r ∈ db.filter (fun x => !x.is_processed) := List.take_subset _ _ h
  have h2 := List.of_mem_filter h1
  simpa using h2

/-!
## Claim theorems
-/

theorem startsList_append (p l : List Char) : startsList p (p ++ l) = true := by
  induction p with
  | nil => rfl
  | cons a as ih => simp [startsList, ih]

theorem stripRight_concat (l : List Char) (c : Char) (h : isWsChar c = false) :
    ((l ++ [c]).reverse.dropWhile isWsChar).reverse = l ++ [c] := by
  rw [List.reverse_append]
  simp only [List.reverse_cons, List.reverse_nil, List.nil_append, List.singleton_append]
  rw [List.dropWhile_cons]
  simp [h]

theorem stripChars_of_ends (s : List Char) (c1 c2 : Char) (t1 t2 : List Char)
    (he1 : s = c1 :: t1) (he2 : s = t2 ++ [c2])
    (h1 : isWsChar c1 = false) (h2 : isWsChar c2 = false) :
    stripChars s = s := by
  unfold stripChars
  have hd : s.dropWhile isWsChar = s := by
    rw [he1, List.dropWhile_cons]
    simp [h1]
  rw [hd, he2, stripRight_concat t2 c2 h2, ← he2]

theorem stripChars_wrap (s : List Char) : stripChars (fenceWrap s) = fenceWrap s := by
  refine stripChars_of_ends (fenceWrap s) bquote bquote
    (bquote :: bquote :: 'j' :: 's' :: 'o' :: 'n' :: '\n' :: (s ++ '\n' :: fence3))
    (fenceJson ++ '\n' :: (s ++ '\n' :: [bquote, bquote])) rfl ?_ (by decide) (by decide)
  simp [fenceWrap, fence3]

theorem dropLeadFence_wrap (s : List Char) :
    dropLeadFence (fenceWrap s) = '\n' :: (s ++ '\n' :: fence3) := by
  have h : startsList fenceJson (fenceWrap s) = true :=
    startsList_append fenceJson ('\n' :: (s ++ '\n' :: fence3))
  simp only [dropLeadFence, h, if_true]
  rfl

theorem dropTrailFence_mid (s : List Char) :
    dropTrailFence ('\n' :: (s ++ '\n' :: fence3)) = '\n' :: (s ++ ['\n']) := by
  have hx : '\n' :: (s ++ '\n' :: fence3) = ('\n' :: (s ++ ['\n'])) ++ fence3 := by simp
  have hesl : endsList fence3 ('\n' :: (s ++ '\n' :: fence3)) = true := by
    unfold endsList
    rw [hx, List.reverse_append]
    exact startsList_append _ _
  simp only [dropTrailFence, hesl, if_true]
  rw [hx, List.length_append]
  have hlen : ('\n' :: (s ++ ['\n'])).length + fence3.length - 3 =
      ('\n' :: (s ++ ['\n'])).length := by simp [fence3]
  rw [hlen]
  exact List.take_left _ _

theorem stripChars_mid (s : List Char) (c1 c2 : Char) (t1 t2 : List Char)
    (he1 : s = c1 :: t1) (he2 : s = t2 ++ [c2])
    (h1 : isWsChar c1 = false) (h2 : isWsChar c2 = false) :
    stripChars ('\n' :: (s ++ ['\n'])) = s := by
  unfold stripChars
  have hnl : isWsChar '\n' = true := by decide
  have hd1 : ('\n' :: (s ++ ['\n'])).dropWhile isWsChar = s ++ ['\n'] := by
    rw [List.dropWhile_cons]
    simp only [hnl, if_true]
    rw [he1, List.cons_append, List.dropWhile_cons]
    simp [h1]
  rw [hd1, he2]
  have hx : (t2 ++ [c2]) ++ ['\n'] = t2 ++ [c2, '\n'] := by simp
  rw [hx, List.reverse_append]
  have hy : ([c2, '\n'] : List Char).reverse = '\n' :: [c2] := by rfl
  rw [hy]
  rw [List.cons_append, List.dropWhile_cons]
  simp only [hnl, if_true]
  rw [List.singleton_append, List.dropWhile_cons]
  simp only [h2, Bool.false_eq_true, if_false]
  simp

/-- C6 (confirmed): the wired extractor `_parse_json_response` equals the
specification's five-step recovery algorithm (reading "the first `{`/`[`
and the matching last `}`/`]`" as the brace span tried first, then the
bracket span, as the code does), and consequently any valid JSON object
or array wrapped in json code fences extracts to the same parsed value
as parsing the unwrapped text directly. -/
theorem extractor_spec_and_roundtrip :
    (∀ s, parse_json_response s = response_extractor_spec s) ∧
    (∀ (s : List Char) (v : Json) (c1 c2 : Char) (t1 t2 : List Char),
      s = c1 :: t1 → s = t2 ++ [c2] →
      c1 = lbrace ∨ c1 = lbrack → c2 = rbrace ∨ c2 = rbrack →
      parseJson s = some v →
      parse_json_response (fenceWrap s) = some v ∧ parse_json_response s = some v) := by
  constructor
  · intro s; rfl
  · intro s v c1 c2 t1 t2 he1 he2 hc1 hc2 hv
    have h1 : isWsChar c1 = false := by rcases hc1 with rfl | rfl <;> decide
    have h2 : isWsChar c2 = false := by rcases hc2 with rfl | rfl <;> decide
    constructor
    · have e0 := stripChars_wrap s
      have e1 := dropLeadFence_wrap s
      have e2 := dropTrailFence_mid s
      have e3 := stripChars_mid s c1 c2 t1 t2 he1 he2 h1 h2
      unfold parse_json_response
      rw [e0, e1, e2, e3]
      simp only [hv]
    · have e0 := stripChars_of_ends s c1 c2 t1 t2 he1 he2 h1 h2
      have hb1 : (bquote = c1) = False := by
        rcases hc1 with rfl | rfl <;> simp <;> decide
      have hb2 : (bquote = c2) = False := by
        rcases hc2 with rfl | rfl <;> simp <;> decide
      have e1 : dropLeadFence s = s := by
        have hf1 : startsList fenceJson s = false := by
          rw [he1]
          simp [startsList, fenceJson, hb1]
        have hf3 : startsList fence3 s = false := by
          rw [he1]
          simp [startsList, fence3, hb1]
        simp [dropLeadFence, hf1, hf3]
      have e2 : dropTrailFence s = s := by
        have hf : endsList fence3 s = false := by
          unfold endsList
          rw [he2, List.reverse_append]
          have : ([c2] : List Char).reverse = [c2] := rfl
          rw [this, List.singleton_append]
          simp [startsList, fence3, hb2]
        simp [dropTrailFence, hf]
      unfold parse_json_response
      rw [e0, e1, e2, e0]
      simp only [hv]

/-- Witness for C6: the array `[1]` wrapped in json fences extracts to
the value obtained by parsing it directly, and the extractor agrees with
the specification algorithm on a concrete noisy input. -/
theorem extractor_spec_and_roundtrip_witness :
    parse_json_response (fenceWrap [lbrack, '1', rbrack]) = some (Json.arr [Json.num 1]) ∧
    parseJson [lbrack, '1', rbrack] = some (Json.arr [Json.num 1]) ∧
    parse_json_response ("noise \x7b\"a\": 1\x7d tail".data) =
      response_extractor_spec ("noise \x7b\"a\": 1\x7d tail".data) :=
  ⟨(extractor_spec_and_roundtrip.2 [lbrack, '1', rbrack] (Json.arr [Json.num 1])
      lbrack rbrack ['1', rbrack] [lbrack, '1'] rfl rfl (Or.inr rfl) (Or.inr rfl) rfl).1,
   rfl,
   extractor_spec_and_roundtrip.1 _⟩

/-- C2 (amended): `_validate_blocks` returns one validated block per
dictionary-typed input entry (non-dict entries skipped), and the `order`
fields are the enumerate indices of those entries in the raw input — so
they are exactly `0..n-1` whenever every input entry is a dictionary,
but skipped entries leave gaps. Any `order` hint in the input is
ignored (`order` is always the positional index), and an absent `id`
defaults to the positional index as a string. -/
theorem validate_blocks_length_and_orders :
    (∀ blocks, (validate_blocks blocks).length = (blocks.filter isObjJson).length) ∧
    (∀ blocks, (validate_blocks blocks).map VBlock.order = objIndicesFrom 0 blocks) ∧
    (∀ blocks, (∀ b ∈ blocks, isObjJson b = true) →
      (validate_blocks blocks).map VBlock.order = List.range blocks.length) ∧
    (∀ i d, (validateBlock i d).order = i) ∧
    (∀ i d, dictGet d "id" = none → (validateBlock i d).id = Json.str (toString i)) := by
  refine ⟨fun blocks => validate_blocks_aux_length blocks 0,
          fun blocks => validate_blocks_aux_orders blocks 0,
          fun blocks h => ?_, fun i d => rfl, fun i d h => ?_⟩
  · rw [validate_blocks, validate_blocks_aux_orders, objIndicesFrom_all_obj blocks h 0,
      ← List.range_eq_range']
  · simp [validateBlock, dictGetD, h]

/-- Witness for C2: two dictionary entries get orders `[0, 1]`, and an
entry with no `id` key gets the stringified index. -/
theorem validate_blocks_length_and_orders_witness :
    (validate_blocks [Json.obj [], Json.obj []]).map VBlock.order = List.range 2 ∧
    (validateBlock 0 []).id = Json.str "0" :=
  ⟨validate_blocks_length_and_orders.2.2.1 [Json.obj [], Json.obj []] (by decide),
   validate_blocks_length_and_orders.2.2.2.2 0 [] rfl⟩

/-- Counterexample for C2 as stated: with a non-dictionary first entry
the single validated block carries order 1, not the contiguous `0..n-1`
(which for one output block would be `[0]`). -/
theorem validate_blocks_order_gap_counterexample :
    (validate_blocks [Json.str "junk", Json.obj []]).map VBlock.order = [1] ∧
    (validate_blocks [Json.str "junk", Json.obj []]).length = 1 ∧
    ([1] : List Nat) ≠ List.range 1 :=
  ⟨rfl, rfl, by decide⟩

/-- C5 (amended): the sample builder emits a preference sample exactly
when the interaction carries a non-null correction payload — regardless
of `was_accepted`, because `has_correction` only checks the payload —
with `chosen` the human correction and `rejected` the original model
output; it emits an SFT sample exactly when no correction is on file and
`was_accepted` is true; it emits nothing otherwise, never both kinds,
and never fails. -/
theorem build_sample_routing :
    ∀ log : TrainingDataLog,
      (isDpoSample (buildSample log) = true ↔ log.human_correction.isSome = true) ∧
      (isSftSample (buildSample log) = true ↔
        log.human_correction.isSome = false ∧ log.was_accepted = true) ∧
      (buildSample log = none ↔
        log.human_correction.isSome = false ∧ log.was_accepted = false) ∧
      (¬(isDpoSample (buildSample log) = true ∧ isSftSample (buildSample log) = true)) ∧
      (∀ c, log.human_correction = some c →
        buildSample log = some (.dpo (create_dpo_sample log)) ∧
        (create_dpo_sample log).chosen = Json.obj c ∧
        (create_dpo_sample log).rejected = Json.obj log.model_output) ∧
      (log.human_correction = none → log.was_accepted = true →
        buildSample log = some (.sft (create_sft_sample log))) := by
  intro log
  cases hc : log.human_correction with
  | none =>
    cases ha : log.was_accepted <;>
      simp [buildSample, TrainingDataLog.has_correction, isDpoSample, isSftSample, hc, ha]
  | some c0 =>
    refine ⟨?_, ?_, ?_, ?_, ?_, ?_⟩ <;>
      simp [buildSample, TrainingDataLog.has_correction, isDpoSample, isSftSample,
        create_dpo_sample, hc]

/-- Witness for C5: a corrected interaction yields exactly the
preference sample with the teacher's payload as `chosen`; an accepted
uncorrected interaction yields exactly the SFT sample. -/
theorem build_sample_routing_witness :
    buildSample logCorrected = some (.dpo (create_dpo_sample logCorrected)) ∧
    (create_dpo_sample logCorrected).chosen = Json.obj [("text", Json.str "fixed")] ∧
    buildSample logAccepted = some (.sft (create_sft_sample logAccepted)) :=
  ⟨((build_sample_routing logCorrected).2.2.2.2.1 [("text", Json.str "fixed")] rfl).1,
   ((build_sample_routing logCorrected).2.2.2.2.1 [("text", Json.str "fixed")] rfl).2.1,
   (build_sample_routing logAccepted).2.2.2.2.2 rfl rfl⟩

/-- Counterexample for C5 as stated: an interaction with a non-null
correction but `was_accepted = true` still yields a preference sample
(the claim requires `was_accepted = false` for a preference sample and
would emit nothing here). -/
theorem build_sample_accepted_correction_counterexample :
    isDpoSample (buildSample logCorrectedAccepted) = true ∧
    logCorrectedAccepted.was_accepted = true ∧
    logCorrectedAccepted.human_correction.isSome = true ∧
    isSftSample (buildSample logCorrectedAccepted) = false :=
  ⟨rfl, rfl, rfl, rfl⟩

/-- C8 (amended): unprocessed selection always excludes processed rows,
and rows just marked are excluded from any subsequent selection, so
re-running collection never selects one sample into a second batch.
Marking is total (re-marking is not an error) and idempotent when
repeated with the same batch id and timestamp; however, re-marking an
already-processed row with a new batch id overwrites its processed-at
time and batch id (it is not a full no-op). -/
theorem mark_processed_selection :
    (∀ db limit r, r ∈ list_unprocessed db limit → r.is_processed = false) ∧
    (∀ db ids b now limit r,
      r ∈ list_unprocessed (mark_batch_processed db ids b now) limit → r.id ∉ ids) ∧
    (∀ db ids b now r, r ∈ mark_batch_processed db ids b now → r.id ∈ ids →
      r.is_processed = true ∧ r.processed_at = some now ∧ r.training_batch_id = some b) ∧
    (∀ db ids b now,
      mark_batch_processed (mark_batch_processed db ids b now) ids b now =
        mark_batch_processed db ids b now) := by
  refine ⟨list_unprocessed_flag, ?_, ?_, ?_⟩
  · intro db ids b now limit r hr hid
    have hflag := list_unprocessed_flag _ limit r hr
    have hmem : r ∈ mark_batch_processed db ids b now := by
      unfold list_unprocessed at hr
      exact List.mem_of_mem_filter (List.take_subset _ _ hr)
    unfold mark_batch_processed at hmem
    obtain ⟨r0, _, hr0⟩ := List.mem_map.mp hmem
    by_cases h0 : r0.id ∈ ids
    · rw [if_pos h0] at hr0
      rw [← hr0] at hflag
      simp at hflag
    · rw [if_neg h0] at hr0
      rw [← hr0] at hid
      exact h0 hid
  · intro db ids b now r hr hid
    unfold mark_batch_processed at hr
    obtain ⟨r0, _, hr0⟩ := List.mem_map.mp hr
    by_cases h0 : r0.id ∈ ids
    · rw [if_pos h0] at hr0
      rw [← hr0]
      exact ⟨rfl, rfl, rfl⟩
    · rw [if_neg h0] at hr0
      rw [← hr0] at hid
      exact absurd hid h0
  · intro db ids b now
    unfold mark_batch_processed
    rw [List.map_map]
    refine List.map_congr_left ?_
    intro r _
    by_cases h0 : r.id ∈ ids <;> simp [Function.comp, h0]

/-- Witness for C8: marking a single unprocessed row places it in the
batch, and selection over the marked store excludes it. -/
theorem mark_processed_selection_witness :
    ((logAccepted.mark_processed "B" 9).is_processed = true ∧
      (logAccepted.mark_processed "B" 9).processed_at = some 9 ∧
      (logAccepted.mark_processed "B" 9).training_batch_id = some "B") ∧
    list_unprocessed (mark_batch_processed [logAccepted] [2] "B" 9) 100 = [] :=
  ⟨mark_processed_selection.2.2.1 [logAccepted] [2] "B" 9
      (logAccepted.mark_processed "B" 9) (List.mem_singleton_self _) (by decide),
   rfl⟩

/-- Counterexample for C8 as stated: re-marking the row already folded
into batch "A" at time 1 with batch id "B" at time 2 changes its
processed-at time and batch id, so the operation is not a no-op on an
already-processed id. -/
theorem mark_reprocess_overwrite_counterexample :
    (mark_batch_processed [processedRow] [5] "B" 2).map
        (fun r => (r.training_batch_id, r.processed_at)) = [(some "B", some 2)] ∧
    processedRow.training_batch_id = some "A" ∧
    processedRow.processed_at = some 1 ∧
    ¬((some "B" : Option String) = some "A") :=
  ⟨rfl, rfl, rfl, by decide⟩

theorem applyLearningStyle_fields (p : NeuroProfile) (d : List (String × Json))
    (q : NeuroProfile) (h : applyLearningStyle p d = .ok q) :
    q.version = p.version ∧ q.attention_span_minutes = p.attention_span_minutes ∧
    q.interests = p.interests := by
  unfold applyLearningStyle at h
  split at h
  · injection h with h; subst h; exact ⟨rfl, rfl, rfl⟩
  · split at h
    · injection h with h; subst h; exact ⟨rfl, rfl, rfl⟩
    · injection h with h; subst h; exact ⟨rfl, rfl, rfl⟩
  · exact absurd h (by simp)

theorem applyComplexity_fields (p : NeuroProfile) (d : List (String × Json))
    (q : NeuroProfile) (h : applyComplexity p d = .ok q) :
    q.version = p.version ∧ q.attention_span_minutes = p.attention_span_minutes ∧
    q.interests = p.interests := by
  unfold applyComplexity at h
  split at h
  · injection h with h; subst h; exact ⟨rfl, rfl, rfl⟩
  · split at h
    · injection h with h; subst h; exact ⟨rfl, rfl, rfl⟩
    · injection h with h; subst h; exact ⟨rfl, rfl, rfl⟩
  · exact absurd h (by simp)

theorem applyInterests_fields (p : NeuroProfile) (d : List (String × Json))
    (q : NeuroProfile) (h : applyInterests p d = .ok q) :
    q.version = p.version ∧ q.attention_span_minutes = p.attention_span_minutes ∧
    (q.interests = p.interests ∨ q.interests.length ≤ 10) := by
  unfold applyInterests at h
  split at h
  · injection h with h; subst h; exact ⟨rfl, rfl, Or.inl rfl⟩
  · injection h with h; subst h
    exact ⟨rfl, rfl, Or.inr (List.length_take_le 10 _)⟩
  · injection h with h; subst h
    refine ⟨rfl, rfl, Or.inr ?_⟩
    simp
  · exact absurd h (by simp)

theorem update_generated_profile_fields (p : NeuroProfile) (d : List (String × Json))
    (now : Nat) (p' : NeuroProfile) (h : update_generated_profile p d now = .ok p') :
    p'.version = p.version + 1 ∧ p'.last_updated = now ∧
    p'.attention_span_minutes = p.attention_span_minutes ∧
    (p'.interests = p.interests ∨ p'.interests.length ≤ 10) := by
  unfold update_generated_profile at h
  split at h
  · exact absurd h (by simp)
  · rename_i p2 h1
    split at h
    · exact absurd h (by simp)
    · rename_i p3 h2
      split at h
      · exact absurd h (by simp)
      · rename_i p4 h3
        injection h with h; subst h
        obtain ⟨v1, a1, i1⟩ := applyLearningStyle_fields _ _ _ h1
        obtain ⟨v2, a2, i2⟩ := applyComplexity_fields _ _ _ h2
        obtain ⟨v3, a3, i3⟩ := applyInterests_fields _ _ _ h3
        refine ⟨?_, rfl, ?_, ?_⟩
        · show p4.version + 1 = p.version + 1
          rw [v3, v2, v1]
        · show p4.attention_span_minutes = p.attention_span_minutes
          rw [a3, a2, a1]
        · show p4.interests = p.interests ∨ p4.interests.length ≤ 10
          rcases i3 with h | h
          · exact Or.inl (by rw [h, i2, i1])
          · exact Or.inr h

/-- C9 (confirmed): every profile reachable through the profile
operations keeps its attention span in `[5, 30]` (creation initializes
it to 15 and no operation modifies it) and at most 10 interests
(`update_generated_profile` truncates to 10); and both update operations
bump the version counter and refresh the last-updated timestamp. -/
theorem profile_ops_invariant :
    (∀ p, ReachableProfile p → ProfileInv p) ∧
    (∀ p raw now, (update_from_assessment p raw now).version = p.version + 1 ∧
      (update_from_assessment p raw now).last_updated = now) ∧
    (∀ p d now p', update_generated_profile p d now = .ok p' →
      p'.version = p.version + 1 ∧ p'.last_updated = now) := by
  refine ⟨?_, fun p raw now => ⟨rfl, rfl⟩,
          fun p d now p' h =>
            ⟨(update_generated_profile_fields p d now p' h).1,
             (update_generated_profile_fields p d now p' h).2.1⟩⟩
  intro p hp
  induction hp with
  | created uid pid raw now d now2 q h =>
    obtain ⟨hv, hl, ha, hi⟩ := update_generated_profile_fields _ _ _ _ h
    refine ⟨?_, ?_, ?_⟩
    · rw [ha]; norm_num [initProfile]
    · rw [ha]; norm_num [initProfile]
    · rcases hi with h | h
      · rw [h]; simp [initProfile]
      · exact h
  | assessed p raw now hp ih =>
    exact ⟨ih.1, ih.2.1, ih.2.2⟩
  | regenerated p d now p' hp h ih =>
    obtain ⟨hv, hl, ha, hi⟩ := update_generated_profile_fields _ _ _ _ h
    refine ⟨?_, ?_, ?_⟩
    · rw [ha]; exact ih.1
    · rw [ha]; exact ih.2.1
    · rcases hi with h | h
      · rw [h]; exact ih.2.2
      · exact h

/-- C3 (confirmed): when a ready cache entry exists for the pair, a play
call returns the stored blocks, replaces the entry by one identical
except for the view counter incremented by one, and its result does not
depend on the gateway oracle or on the call's timing inputs — zero
gateway calls are performed. This applies to every sequential call while
the entry stays ready, in particular to a second call after a first. -/
theorem play_ready_cache_hit :
    ∀ (gen gen' : GenOracle) (now dms fid now' dms' fid' : Nat) (db : DB) (lid sid : Nat)
      (lesson : Lesson) (student : User) (e : AdaptedLesson),
      db.findLesson lid = some lesson →
      db.findUser sid = some student →
      student.is_student = true →
      db.findAdapted lid sid = some e →
      e.status = .ready →
      play_lesson gen now dms fid db lid sid =
        (.ok { lesson_title := e.lesson_title, adaptation_style := e.adaptation_style,
               blocks := e.content_blocks_json, adapted_lesson_id := e.id,
               original_lesson_id := lid, student_id := sid },
         db.updateAdapted { e with view_count := e.view_count + 1 }) ∧
      play_lesson gen now dms fid db lid sid = play_lesson gen' now' dms' fid' db lid sid := by
  intro gen gen' now dms fid now' dms' fid' db lid sid lesson student e hL hU hS hA hR
  have key : ∀ (g : GenOracle) (n m f : Nat),
      play_lesson g n m f db lid sid =
        (.ok { lesson_title := e.lesson_title, adaptation_style := e.adaptation_style,
               blocks := e.content_blocks_json, adapted_lesson_id := e.id,
               original_lesson_id := lid, student_id := sid },
         db.updateAdapted { e with view_count := e.view_count + 1 }) := by
    intro g n m f
    simp [play_lesson, hL, hU, hS, hA, hR, AdaptedLesson.increment_view_count]
  exact ⟨key gen now dms fid, (key gen now dms fid).trans (key gen' now' dms' fid').symm⟩

/-- Witness for C3: with the ready entry cached, a play call through a
failing oracle still succeeds, returns the stored three blocks, bumps
the view counter from 3 to 4, and equals the call through any other
oracle and timing inputs. -/
theorem play_ready_cache_hit_witness :
    play_lesson genBoom 11 6 77 dbHit 1 2 =
      (.ok { lesson_title := "T", adaptation_style := Json.str "Visual Focus",
             blocks := Json.arr threeBlocks, adapted_lesson_id := 42,
             original_lesson_id := 1, student_id := 2 },
       dbHit.updateAdapted { readyEntry with view_count := 4 }) ∧
    play_lesson genBoom 11 6 77 dbHit 1 2 = play_lesson genThree 0 0 0 dbHit 1 2 :=
  play_ready_cache_hit genBoom genThree 11 6 77 0 0 0 dbHit 1 2 lessonC studentC readyEntry
    rfl rfl rfl rfl rfl

/-- C4 (confirmed): with no ready cache entry, a missing learner profile
fails the call with the distinct missing-profile validation error before
any model call (the result is a fixed error value independent of the
oracle) and leaves the store unchanged; with a ready entry, the call
succeeds whatever the profile store holds — including after the profile
was deleted. -/
theorem play_profile_requirements :
    (∀ (gen : GenOracle) (now dms fid : Nat) (db : DB) (lid sid : Nat)
      (lesson : Lesson) (student : User),
      db.findLesson lid = some lesson →
      db.findUser sid = some student →
      student.is_student = true →
      (db.findAdapted lid sid = none ∨
        ∃ a, db.findAdapted lid sid = some a ∧ a.status ≠ .ready) →
      db.findProfile sid = none →
      play_lesson gen now dms fid db lid sid =
        (.error (.validation "Student must complete assessment before accessing lessons"
            "student_id"), db)) ∧
    (∀ (gen : GenOracle) (now dms fid : Nat) (db : DB) (ps : List NeuroProfile) (lid sid : Nat)
      (lesson : Lesson) (student : User) (e : AdaptedLesson),
      db.findLesson lid = some lesson →
      db.findUser sid = some student →
      student.is_student = true →
      db.findAdapted lid sid = some e →
      e.status = .ready →
      (play_lesson gen now dms fid { db with neuro_profiles := ps } lid sid).1 =
        .ok { lesson_title := e.lesson_title, adaptation_style := e.adaptation_style,
              blocks := e.content_blocks_json, adapted_lesson_id := e.id,
              original_lesson_id := lid, student_id := sid }) := by
  constructor
  · intro gen now dms fid db lid sid lesson student hL hU hS hA hP
    rcases hA with hA | ⟨a, hA, hne⟩
    · simp [play_lesson, generate_adapted, hL, hU, hS, hA, hP]
    · simp [play_lesson, generate_adapted, hL, hU, hS, hA, hne, hP]
  · intro gen now dms fid db ps lid sid lesson student e hL hU hS hA hR
    have hL' : ({ db with neuro_profiles := ps } : DB).findLesson lid = some lesson := hL
    have hU' : ({ db with neuro_profiles := ps } : DB).findUser sid = some student := hU
    have hA' : ({ db with neuro_profiles := ps } : DB).findAdapted lid sid = some e := hA
    simp [play_lesson, hL', hU', hS, hA', hR, AdaptedLesson.increment_view_count]

/-- Witness for C4: with no cache entry and no profile the call fails
with the missing-profile error and an unchanged store; with the ready
entry cached the call succeeds although the profile store is empty. -/
theorem play_profile_requirements_witness :
    play_lesson genBoom 1 1 1 dbNoProf 1 2 =
      (.error (.validation "Student must complete assessment before accessing lessons"
          "student_id"), dbNoProf) ∧
    (play_lesson genBoom 1 1 1 { dbHit with neuro_profiles := [] } 1 2).1 =
      .ok { lesson_title := "T", adaptation_style := Json.str "Visual Focus",
            blocks := Json.arr threeBlocks, adapted_lesson_id := 42,
            original_lesson_id := 1, student_id := 2 } :=
  ⟨play_profile_requirements.1 genBoom 1 1 1 dbNoProf 1 2 lessonC studentC
      rfl rfl rfl (Or.inl rfl) rfl,
   play_profile_requirements.2 genBoom 1 1 1 dbHit [] 1 2 lessonC studentC readyEntry
      rfl rfl rfl rfl rfl⟩

/-- C7 (confirmed): when the generation step fails (model call error or
unrecoverable response, surfaced by the service as a single
`AIServiceError`), the play call propagates exactly that error and
returns the store unchanged — no cache entry is created or updated in
any status and the lesson's adaptation counter is untouched, so a later
call starts generation from scratch. -/
theorem play_generation_failure_clean :
    ∀ (gen : GenOracle) (now dms fid : Nat) (db : DB) (lid sid : Nat)
      (lesson : Lesson) (student : User) (profile : NeuroProfile) (m : String),
      db.findLesson lid = some lesson →
      db.findUser sid = some student →
      student.is_student = true →
      (db.findAdapted lid sid = none ∨
        ∃ a, db.findAdapted lid sid = some a ∧ a.status ≠ .ready) →
      db.findProfile sid = some profile →
      adapt_lesson gen lesson profile = .error m →
      play_lesson gen now dms fid db lid sid = (.error (.aiService m), db) := by
  intro gen now dms fid db lid sid lesson student profile m hL hU hS hA hP hF
  rcases hA with hA | ⟨a, hA, hne⟩
  · simp [play_lesson, generate_adapted, hL, hU, hS, hA, hP, hF]
  · simp [play_lesson, generate_adapted, hL, hU, hS, hA, hne, hP, hF]

/-- Witness for C7: a raising model call surfaces as the wrapped
`AIServiceError` and leaves the store exactly as it was. -/
theorem play_generation_failure_clean_witness :
    play_lesson genBoom 10 5 99 dbMiss 1 2 =
      (.error (.aiService "Failed to adapt lesson: boom"), dbMiss) :=
  play_generation_failure_clean genBoom 10 5 99 dbMiss 1 2 lessonC studentC profileC
    "Failed to adapt lesson: boom" rfl rfl rfl (Or.inl rfl) rfl rfl

/-- C10 (confirmed): an unknown lesson id, an unknown user id, or a
non-student user fails the play call with the corresponding not-found or
validation error, independently of the gateway oracle and with the store
unchanged — in particular before any cache read or generation, even when
a ready cached adaptation exists for the pair. -/
theorem play_entity_checks_first :
    (∀ (gen : GenOracle) (now dms fid : Nat) (db : DB) (lid sid : Nat),
      db.findLesson lid = none →
      play_lesson gen now dms fid db lid sid = (.error (.entityNotFound "Lesson" lid), db)) ∧
    (∀ (gen : GenOracle) (now dms fid : Nat) (db : DB) (lid sid : Nat) (lesson : Lesson),
      db.findLesson lid = some lesson →
      db.findUser sid = none →
      play_lesson gen now dms fid db lid sid = (.error (.entityNotFound "User" sid), db)) ∧
    (∀ (gen : GenOracle) (now dms fid : Nat) (db : DB) (lid sid : Nat)
      (lesson : Lesson) (student : User),
      db.findLesson lid = some lesson →
      db.findUser sid = some student →
      student.is_student = false →
      play_lesson gen now dms fid db lid sid =
        (.error (.validation "Only students can play lessons" "student_id"), db)) := by
  refine ⟨?_, ?_, ?_⟩
  · intro gen now dms fid db lid sid hL
    simp [play_lesson, hL]
  · intro gen now dms fid db lid sid lesson hL hU
    simp [play_lesson, hL, hU]
  · intro gen now dms fid db lid sid lesson student hL hU hS
    simp [play_lesson, hL, hU, hS]

/-- Witness for C10: over the store that caches a ready adaptation for
(lesson 1, student 2), an unknown lesson id, an unknown user id, and a
teacher caller each fail with the distinct early error and the store
unchanged. -/
theorem play_entity_checks_first_witness :
    play_lesson genThree 10 5 99 dbHit 3 2 = (.error (.entityNotFound "Lesson" 3), dbHit) ∧
    play_lesson genThree 10 5 99 dbHit 1 9 = (.error (.entityNotFound "User" 9), dbHit) ∧
    play_lesson genThree 10 5 99 dbHit 1 4 =
      (.error (.validation "Only students can play lessons" "student_id"), dbHit) :=
  ⟨play_entity_checks_first.1 genThree 10 5 99 dbHit 3 2 rfl,
   play_entity_checks_first.2.1 genThree 10 5 99 dbHit 1 9 lessonC rfl rfl,
   play_entity_checks_first.2.2 genThree 10 5 99 dbHit 1 4 lessonC teacherC rfl rfl rfl⟩

/-- C1 (amended): on a cache miss, the blocks the play call persists and
returns are exactly the `blocks` field of the JSON-extractor output of
the model's raw response text — no content-block validation is applied
(`GeminiAIService.adapt_lesson` passes the decoded blocks through
unchanged; the validator exists only in the unused
`LessonAdaptationAgent`). Persistence is gated by the repository's
`_to_entity` re-parse: when the blocks fail it (an unknown or non-string
type tag, or a non-dictionary entry) the call fails with an uncaught
error and the store is unchanged; when they pass it, the raw blocks are
stored in a ready entry with no order values assigned, and the returned
entity only normalizes falsy style/blocks to `""`/`[]`. -/
theorem play_generation_stores_raw_blocks :
    ∀ (gen : GenOracle) (now dms fid : Nat) (db : DB) (lid sid : Nat)
      (lesson : Lesson) (student : User) (profile : NeuroProfile)
      (resp : List Char) (dct : List (String × Json)),
      db.findLesson lid = some lesson →
      db.findUser sid = some student →
      student.is_student = true →
      db.findAdapted lid sid = none →
      db.findProfile sid = some profile →
      gen (build_lesson_adaptation_prompt lesson profile) = .ok resp →
      parse_json_response resp = some (Json.obj dct) →
      (toEntityBlocksOk (dictGetD dct "blocks" (Json.arr [])) = true →
        play_lesson gen now dms fid db lid sid =
          (.ok { lesson_title := lesson.title
                 adaptation_style :=
                   (if pyTruthy (dictGetD dct "adaptation_style"
                        (Json.str (pyTitle profile.learning_style.value ++ " Focus"))) then
                      dictGetD dct "adaptation_style"
                        (Json.str (pyTitle profile.learning_style.value ++ " Focus"))
                    else Json.str "")
                 blocks :=
                   (if pyTruthy (dictGetD dct "blocks" (Json.arr [])) then
                      dictGetD dct "blocks" (Json.arr [])
                    else Json.arr [])
                 adapted_lesson_id := fid
                 original_lesson_id := lid
                 student_id := sid },
           (db.createAdapted
               (((AdaptedLesson.make fid lid sid lesson.title
                     (dictGetD dct "adaptation_style"
                       (Json.str (pyTitle profile.learning_style.value ++ " Focus")))
                     dms).set_content_blocks
                   (dictGetD dct "blocks" (Json.arr []))).mark_as_ready)).updateLesson
             (lesson.increment_adaptation_count now))) ∧
      (toEntityBlocksOk (dictGetD dct "blocks" (Json.arr [])) = false →
        play_lesson gen now dms fid db lid sid = (.error (.unhandled "ValueError"), db)) := by
  intro gen now dms fid db lid sid lesson student profile resp dct hL hU hS hA hP hG hJ
  constructor
  · intro hOk
    simp only [dictGetD, dictGet] at hOk
    simp [play_lesson, generate_adapted, adapt_lesson, AdaptedLesson.make,
      AdaptedLesson.set_content_blocks, AdaptedLesson.mark_as_ready, to_entity_view,
      hL, hU, hS, hA, hP, hG, hJ, hOk, dictGetD, dictGet, List.find?]
  · intro hBad
    simp only [dictGetD, dictGet] at hBad
    simp [play_lesson, generate_adapted, adapt_lesson,
      hL, hU, hS, hA, hP, hG, hJ, hBad, dictGetD, dictGet, List.find?]

set_option maxRecDepth 100000 in
/-- Witness for C1: the three-block gateway stub yields a successful
first play whose returned blocks are the three raw blocks unchanged, and
whose single stored cache entry is ready and holds the same three
blocks. -/
theorem play_generation_stores_raw_blocks_witness :
    (play_lesson genThree 10 5 99 dbMiss 1 2).1 =
      .ok { lesson_title := "T", adaptation_style := Json.str "Visual Focus",
            blocks := Json.arr threeBlocks, adapted_lesson_id := 99,
            original_lesson_id := 1, student_id := 2 } ∧
    blockCount (playBlocksOf (play_lesson genThree 10 5 99 dbMiss 1 2).1) = 3 ∧
    (play_lesson genThree 10 5 99 dbMiss 1 2).2.adapted_lessons.map AdaptedLesson.status =
      [.ready] ∧
    (play_lesson genThree 10 5 99 dbMiss 1 2).2.adapted_lessons.map
        AdaptedLesson.content_blocks_json = [Json.arr threeBlocks] := by
  have h := (play_generation_stores_raw_blocks genThree 10 5 99 dbMiss 1 2
    lessonC studentC profileC
    ("\x7b\"adaptation_style\": \"Visual Focus\", \"blocks\": [\x7b\"type\": \"heading\", \"content\": \"H\"\x7d, \x7b\"type\": \"text\", \"content\": \"B\"\x7d, \x7b\"type\": \"quiz\", \"question\": \"Q\"\x7d]\x7d".data)
    [("adaptation_style", Json.str "Visual Focus"), ("blocks", Json.arr threeBlocks)]
    rfl rfl rfl rfl rfl rfl (by rfl)).1 (by rfl)
  rw [h]
  exact ⟨rfl, rfl, rfl, rfl⟩

set_option maxRecDepth 100000 in
/-- Counterexample for C1 as stated: the three-block stub produces a
successful play whose persisted and returned blocks carry no `order`
values at all, whereas validator output would carry orders `[0, 1, 2]`;
and a stub returning a block with unknown type `mystery` does not yield
a persisted validated `text` block — the repository's `ContentBlockType`
re-parse raises, the whole call fails, and the store is unchanged. So
the play path does not pass blocks through the validator. -/
theorem play_without_validator_counterexample :
    isOkPlay (play_lesson genThree 10 5 99 dbMiss 1 2).1 = true ∧
    blockOrderValues (playBlocksOf (play_lesson genThree 10 5 99 dbMiss 1 2).1) =
      [none, none, none] ∧
    (validate_blocks threeBlocks).map VBlock.order = [0, 1, 2] ∧
    play_lesson genMystery 10 5 99 dbMiss 1 2 = (.error (.unhandled "ValueError"), dbMiss) ∧
    (validate_blocks [rawMystery]).map VBlock.type = ["text"] :=
  ⟨rfl, rfl, rfl, rfl, rfl⟩

/-- Witness for C9: the profile created from a concrete assessment
satisfies the invariant, and its creation bumped the version to 2. -/
theorem profile_ops_invariant_witness :
    update_generated_profile (initProfile 1 2 Json.null 0) [] 5 = .ok profileSample ∧
    ProfileInv profileSample ∧
    profileSample.version = (initProfile 1 2 Json.null 0).version + 1 ∧
    profileSample.last_updated = 5 :=
  ⟨rfl,
   profile_ops_invariant.1 profileSample
     (ReachableProfile.created 1 2 Json.null 0 [] 5 profileSample rfl),
   (profile_ops_invariant.2.2 (initProfile 1 2 Json.null 0) [] 5 profileSample rfl).1,
   (profile_ops_invariant.2.2 (initProfile 1 2 Json.null 0) [] 5 profileSample rfl).2⟩

end Nevo
